import Mathlib

/-!
Verification development for the Capitalisk DEX HTTP API gateway.

The definitions below are a shallow embedding of the gateway's request
handling code: the JavaScript value model needed by the query sanitizer
(`_getSanitizedQuery` and the order-book `depth` coercion), the error
classifier (`_respondWithError`), the GDAX view transforms
(`getGDAXBids` / `getGDAXAsks` / `getGDAXOrders`), and the optional
settlement-chain routes.  JavaScript numbers are modelled as integers
plus a NaN element (the sanitizer only ever produces `parseInt` results,
which are integral), and number-to-string coercion follows the
ECMAScript rule of switching to exponential notation at 10^21 — which is
what breaks re-parsing of very large `limit` values; double-precision
rounding above 2^53 and the Infinity overflow are not modelled, so
theorems about large values are stated only where the integer model and
the double semantics agree.  Objects are modelled as association lists
with first-key lookup and in-place update, matching JS property
semantics.
-/

namespace DexHttpApi

/-- A JavaScript number as produced by `parseInt`: either NaN or an integral
value, carried as an exact integer (the rounding a double applies above
2^53 is not modelled; string coercion of large values is, see
`intToString`). -/
inductive JsNumber : Type
  | nan : JsNumber
  | int : Int → JsNumber
deriving DecidableEq

/-- A JavaScript value appearing in a query object: a string (as received
from the transport layer) or a number (after sanitization). -/
inductive JSVal : Type
  | str : String → JSVal
  | num : JsNumber → JSVal
deriving DecidableEq

/-- Whitespace skipped by JS `parseInt` (the common ASCII white-space set). -/
def isJsWs (c : Char) : Bool :=
  (c == ' ') || (c == '\t') || (c == '\n') || (c == '\r') || (c == '\u000B') || (c == '\u000C')

/-- Decimal digit test, `'0'..'9'`. -/
def isDecDigit (c : Char) : Bool :=
  decide ('0' ≤ c ∧ c ≤ '9')

/-- Hexadecimal digit test. -/
def isHexDigit (c : Char) : Bool :=
  decide (('0' ≤ c ∧ c ≤ '9') ∨ ('a' ≤ c ∧ c ≤ 'f') ∨ ('A' ≤ c ∧ c ≤ 'F'))

/-- Value of a list of decimal digit characters, most significant first. -/
def decValue (cs : List Char) : Nat :=
  cs.foldl (fun a c => a * 10 + (c.toNat - 48)) 0

/-- Value of one hexadecimal digit character. -/
def hexDigitVal (c : Char) : Nat :=
  if '0' ≤ c ∧ c ≤ '9' then c.toNat - 48
  else if 'a' ≤ c ∧ c ≤ 'f' then c.toNat - 87
  else c.toNat - 55

/-- Value of a list of hexadecimal digit characters, most significant first. -/
def hexValue (cs : List Char) : Nat :=
  cs.foldl (fun a c => a * 16 + hexDigitVal c) 0

/-- Splits an optional leading sign off a character list, JS `parseInt` step. -/
def splitSign (cs : List Char) : Int × List Char :=
  match cs with
  | c :: rest => if c = '-' then (-1, rest) else if c = '+' then (1, rest) else (1, cs)
  | [] => (1, [])

/-- Detects the `0x` / `0X` prefix that switches JS `parseInt` (with no radix
argument) into hexadecimal mode. -/
def isHexStart (cs : List Char) : Bool :=
  match cs with
  | c0 :: c1 :: _ => (c0 == '0') && ((c1 == 'x') || (c1 == 'X'))
  | _ => false

/-- Parses the longest decimal-digit prefix; NaN when there is none. -/
def parseDec (sign : Int) (cs : List Char) : JsNumber :=
  let ds := cs.takeWhile isDecDigit
  if ds.isEmpty then JsNumber.nan else JsNumber.int (sign * (decValue ds : Int))

/-- Continues JS `parseInt` after whitespace and sign handling: switch to
hexadecimal on a `0x` prefix, otherwise parse the longest decimal-digit
prefix; NaN when no digit is found. -/
def parseSigned (sc : Int × List Char) : JsNumber :=
  if isHexStart sc.2 then
    if ((sc.2.drop 2).takeWhile isHexDigit).isEmpty then JsNumber.nan
    else JsNumber.int (sc.1 * (hexValue ((sc.2.drop 2).takeWhile isHexDigit) : Int))
  else parseDec sc.1 sc.2

/-- JS `parseInt(s)` with no radix argument: skip leading whitespace, read an
optional sign, then parse the remainder. -/
def parseIntStr (s : String) : JsNumber :=
  parseSigned (splitSign (s.data.dropWhile isJsWs))

/-- Fuel-driven worker for the big-endian decimal digits of a natural
number; structural recursion on the fuel keeps it kernel-reducible, and
any fuel of at least `n` steps gives the same answer. -/
def natToDigitsBEAux : Nat → Nat → List Nat
  | 0, n => [n]
  | fuel + 1, n => if n < 10 then [n] else natToDigitsBEAux fuel (n / 10) ++ [n % 10]

/-- Big-endian decimal digits of a natural number (`0` prints as `[0]`). -/
def natToDigitsBE (n : Nat) : List Nat :=
  natToDigitsBEAux n n

/-- Character for a decimal digit value. -/
def digitToChar (d : Nat) : Char := Char.ofNat (48 + d)

/-- Decimal digit characters of a natural number, most significant first. -/
def natToDecChars (n : Nat) : List Char :=
  (natToDigitsBE n).map digitToChar

/-- Exponential-notation characters for a magnitude at or above 10^21,
following the ECMAScript Number-to-String rule for integral values: the
significant digits (trailing zeros stripped), a `.` after the first when
more than one remains, then `e+` and the decimal exponent — for example
10^21 prints as `1e+21`. -/
def expNotation (n : Nat) : List Char :=
  match ((natToDigitsBE n).reverse.dropWhile (fun d => d == 0)).reverse with
  | [] => ['0']
  | d :: rest =>
      if rest.isEmpty then
        digitToChar d :: 'e' :: '+' :: natToDecChars ((natToDigitsBE n).length - 1)
      else
        digitToChar d :: '.' :: rest.map digitToChar
          ++ 'e' :: '+' :: natToDecChars ((natToDigitsBE n).length - 1)

/-- JS `String(i)` for an integral number: optional minus sign, then plain
decimal digits for magnitudes below 10^21 and exponential notation at or
above that threshold (`String(1e21)` is `"1e+21"`). -/
def intToString (i : Int) : String :=
  if i.natAbs < 10 ^ 21 then
    if i < 0 then String.mk ('-' :: natToDecChars i.natAbs)
    else String.mk (natToDecChars i.natAbs)
  else
    if i < 0 then String.mk ('-' :: expNotation i.natAbs)
    else String.mk (expNotation i.natAbs)

/-- JS `String(n)` for a number: `"NaN"` for NaN, decimal notation otherwise. -/
def numToString (n : JsNumber) : String :=
  match n with
  | JsNumber.nan => "NaN"
  | JsNumber.int i => intToString i

/-- JS string coercion of a query value. -/
def jsToString (v : JSVal) : String :=
  match v with
  | JSVal.str s => s
  | JSVal.num n => numToString n

/-- JS `parseInt(v)`: coerce the argument to a string, then parse. -/
def jsParseInt (v : JSVal) : JsNumber :=
  parseIntStr (jsToString v)

/-- A query object: association list from property names to values, with
unique-key JS object semantics given by first-match lookup. -/
abbrev Query : Type := List (String × JSVal)

/-- Property read `q[k]`: `none` models JS `undefined` for an absent key. -/
def jsGet : Query → String → Option JSVal
  | [], _ => none
  | (k', v) :: rest, k => if k' = k then some v else jsGet rest k

/-- Property write `q[k] = v`: replaces the first binding of `k` in place,
appends when the key is absent (JS object assignment semantics). -/
def setKey : Query → String → JSVal → Query
  | [], k, v => [(k, v)]
  | (k', v') :: rest, k, v =>
      if k' = k then (k, v) :: rest else (k', v') :: setKey rest k v

/-- The gateway's `_getSanitizedQuery` (src/index.js): copy the query and,
when `limit` is present (`query.limit != null`), replace it with
`parseInt(query.limit)`. -/
def sanitizeQuery (q : Query) : Query :=
  match jsGet q "limit" with
  | none => q
  | some v => setKey q "limit" (JSVal.num (jsParseInt v))

/-- The `/order-book` handler's extra step (src/index.js): after
`_getSanitizedQuery`, when `depth` is present replace it with
`parseInt(sanitizedQuery.depth)`. -/
def orderBookSanitize (q : Query) : Query :=
  match jsGet (sanitizeQuery q) "depth" with
  | none => sanitizeQuery q
  | some v => setKey (sanitizeQuery q) "depth" (JSVal.num (jsParseInt v))

/-- An HTTP response as produced by the gateway's handlers. -/
structure HttpResponse where
  status : Nat
  body : String
deriving DecidableEq

/-- A wrapped source error as attached by the DEX engine to bus errors. -/
structure SourceError where
  name : String
  message : String
deriving DecidableEq

/-- An error raised by a bus invocation, possibly wrapping a source error. -/
structure JsError where
  name : String
  message : String
  sourceError : Option SourceError
deriving DecidableEq

/-- The gateway's `_respondWithError` (src/index.js): HTTP 400 with the
source error's message when the error wraps a source error named
`InvalidQueryError`; a generic HTTP 500 otherwise. -/
def respondWithError (e : JsError) : HttpResponse :=
  match e.sourceError with
  | some src =>
      if src.name = "InvalidQueryError" then
        ⟨400, "Invalid query: " ++ src.message⟩
      else ⟨500, "Server error"⟩
  | none => ⟨500, "Server error"⟩

/-- Market data fetched once at startup from the DEX engine. -/
structure MarketData where
  baseSymbol : String
  quoteSymbol : String
deriving DecidableEq

/-- The market display identifier, built at startup as
`quoteSymbol-baseSymbol` (src/unnamed/part_003, `load`). -/
def mkMarketId (md : MarketData) : String :=
  md.quoteSymbol ++ "-" ++ md.baseSymbol

/-- A native order record returned by the DEX engine; every field an
`Option` because JS property reads yield `undefined` on absent fields. -/
structure OrderRecord where
  orderId : Option JSVal
  price : Option JSVal
  size : Option JSVal
  sizeRemaining : Option JSVal
  side : Option String
  timestamp : Option JSVal
deriving DecidableEq

/-- A record of the normalized (GDAX-style) order view. -/
structure NormalizedOrderView where
  id : Option JSVal
  price : Option JSVal
  size : Option JSVal
  product_id : String
  side : String
  stp : String
  type : String
  time_in_force : String
  post_only : Bool
  created_at : Option JSVal
  fill_fees : String
  filled_size : String
  executed_value : String
  status : String
  settled : Bool
deriving DecidableEq

/-- The `getGDAXBids` transform (src/unnamed/part_003): maps the fetched
bid records to the normalized view with `side: 'buy'`. -/
def getGDAXBids (marketId : String) (bids : List OrderRecord) : List NormalizedOrderView :=
  bids.map fun order =>
    { id := order.orderId
      price := order.price
      size := order.sizeRemaining
      product_id := marketId
      side := "buy"
      stp := "dc"
      type := "limit"
      time_in_force := "GTC"
      post_only := false
      created_at := order.timestamp
      fill_fees := "0.0000000000000000"
      filled_size := "0.00000000"
      executed_value := "0.0000000000000000"
      status := "open"
      settled := false }

/-- The `getGDAXAsks` transform (src/unnamed/part_003): maps the fetched
ask records to the normalized view with `side: 'sell'`. -/
def getGDAXAsks (marketId : String) (asks : List OrderRecord) : List NormalizedOrderView :=
  asks.map fun order =>
    { id := order.orderId
      price := order.price
      size := order.sizeRemaining
      product_id := marketId
      side := "sell"
      stp := "dc"
      type := "limit"
      time_in_force := "GTC"
      post_only := false
      created_at := order.timestamp
      fill_fees := "0.0000000000000000"
      filled_size := "0.00000000"
      executed_value := "0.0000000000000000"
      status := "open"
      settled := false }

/-- The `getGDAXOrders` transform (src/unnamed/part_003): maps the fetched
mixed order records to the normalized view, deriving `side` per record
from the native side tag (`order.side === 'ask' ? 'sell' : 'buy'`). -/
def getGDAXOrders (marketId : String) (orders : List OrderRecord) : List NormalizedOrderView :=
  orders.map fun order =>
    { id := order.orderId
      price := order.price
      size := order.sizeRemaining
      product_id := marketId
      side := if order.side = some "ask" then "sell" else "buy"
      stp := "dc"
      type := "limit"
      time_in_force := "GTC"
      post_only := false
      created_at := order.timestamp
      fill_fees := "0.0000000000000000"
      filled_size := "0.00000000"
      executed_value := "0.0000000000000000"
      status := "open"
      settled := false }

/-- A bus invocation target and payload, recorded to observe whether a
handler invoked the bus. -/
structure BusCall where
  target : String
  payload : String
deriving DecidableEq

/-- A registered HTTP route: method, path, and a handler from the opaque
request payload to a response together with the bus calls it made. -/
structure Route where
  method : String
  path : String
  handler : String → HttpResponse × List BusCall

/-- Settlement-chain dependency aliases from the configuration surface
(src/defaults/config.js: `baseChainModuleAlias`, `quoteChainModuleAlias`). -/
structure ChainConfig where
  baseChainModuleAlias : Option String
  quoteChainModuleAlias : Option String
deriving DecidableEq

/-- The default configuration (src/defaults/config.js): both
settlement-chain aliases are `null`. -/
def defaultChainConfig : ChainConfig :=
  { baseChainModuleAlias := none, quoteChainModuleAlias := none }

/-- Modelled from the spec: the fixed explanatory body sent with the `501`
response of a chain route whose dependency alias is not configured (the
route registration code for `/chain/{base|quote}/...` is not under src/;
only its configuration declarations are). -/
def chainNotSupportedBody : String :=
  "This action is not supported because the required chain module dependency is not configured"

/-- Modelled from the spec: handler of `GET /chain/{base|quote}/account`.
When the chain's dependency alias is configured it invokes `getAccount`
on that alias; otherwise it responds `501` with a fixed explanatory body
and makes no bus call. -/
def chainAccountHandler (chainAlias : Option String)
    (invokeBus : String → String → HttpResponse) (payload : String) :
    HttpResponse × List BusCall :=
  match chainAlias with
  | none => (⟨501, chainNotSupportedBody⟩, [])
  | some a => (invokeBus (a ++ ":getAccount") payload, [⟨a ++ ":getAccount", payload⟩])

/-- Modelled from the spec: handler of `POST /chain/{base|quote}/transaction`.
When the chain's dependency alias is configured it invokes
`postTransaction` on that alias, forwarding the request body unmodified;
otherwise it responds `501` with a fixed explanatory body and makes no
bus call. -/
def chainTransactionHandler (chainAlias : Option String)
    (invokeBus : String → String → HttpResponse) (payload : String) :
    HttpResponse × List BusCall :=
  match chainAlias with
  | none => (⟨501, chainNotSupportedBody⟩, [])
  | some a => (invokeBus (a ++ ":postTransaction") payload, [⟨a ++ ":postTransaction", payload⟩])

/-- Modelled from the spec: the settlement-chain routes are always
registered, for both the base and the quote chain, regardless of whether
the corresponding dependency alias is configured. -/
def chainRoutes (cfg : ChainConfig) (invokeBus : String → String → HttpResponse) : List Route :=
  [ ⟨"GET", "/chain/base/account", chainAccountHandler cfg.baseChainModuleAlias invokeBus⟩,
    ⟨"POST", "/chain/base/transaction", chainTransactionHandler cfg.baseChainModuleAlias invokeBus⟩,
    ⟨"GET", "/chain/quote/account", chainAccountHandler cfg.quoteChainModuleAlias invokeBus⟩,
    ⟨"POST", "/chain/quote/transaction", chainTransactionHandler cfg.quoteChainModuleAlias invokeBus⟩ ]

/-! Lemmas about the query-object model. -/

theorem jsGet_setKey_self (q : Query) (k : String) (v : JSVal) :
    jsGet (setKey q k v) k = some v := by
  induction q with
  | nil => simp [setKey, jsGet]
  | cons p rest ih =>
      obtain ⟨k', v'⟩ := p
      by_cases hp : k' = k
      · simp [setKey, jsGet, hp]
      · simp [setKey, jsGet, hp, ih]

theorem jsGet_setKey_ne (q : Query) (k k' : String) (v : JSVal) (h : k' ≠ k) :
    jsGet (setKey q k v) k' = jsGet q k' := by
  have hne : ¬ k = k' := fun hh => h hh.symm
  induction q with
  | nil => simp [setKey, jsGet, hne]
  | cons p rest ih =>
      obtain ⟨k0, v0⟩ := p
      by_cases hp : k0 = k
      · subst hp
        simp [setKey, jsGet, hne]
      · by_cases hk : k0 = k'
        · subst hk
          simp [setKey, jsGet, hp]
        · simp [setKey, jsGet, hp, hk, ih]

theorem jsGet_sanitizeQuery_ne (q : Query) (k : String) (h : k ≠ "limit") :
    jsGet (sanitizeQuery q) k = jsGet q k := by
  unfold sanitizeQuery
  cases hq : jsGet q "limit" with
  | none => rfl
  | some v => exact jsGet_setKey_ne q "limit" k _ h

theorem jsGet_orderBookSanitize_ne (q : Query) (k : String)
    (h1 : k ≠ "limit") (h2 : k ≠ "depth") :
    jsGet (orderBookSanitize q) k = jsGet q k := by
  unfold orderBookSanitize
  cases hq : jsGet (sanitizeQuery q) "depth" with
  | none => exact jsGet_sanitizeQuery_ne q k h1
  | some v =>
      rw [jsGet_setKey_ne _ "depth" k _ h2]
      exact jsGet_sanitizeQuery_ne q k h1

theorem jsGet_orderBookSanitize_limit (q : Query) :
    jsGet (orderBookSanitize q) "limit" = jsGet (sanitizeQuery q) "limit" := by
  unfold orderBookSanitize
  cases hq : jsGet (sanitizeQuery q) "depth" with
  | none => rfl
  | some v => exact jsGet_setKey_ne _ "depth" "limit" _ (by decide)

/-! Lemmas about the decimal printer and JS `parseInt`, culminating in the
roundtrip `parseIntStr (numToString n) = n`. -/

theorem sanitizeQuery_of_limit (q : Query) (w : JSVal) (h : jsGet q "limit" = some w) :
    sanitizeQuery q = setKey q "limit" (JSVal.num (jsParseInt w)) := by
  unfold sanitizeQuery; rw [h]

/-! Claim theorems. -/

/-- C1: the error classifier responds 400 with body `Invalid query: <source
message>` exactly when the error wraps a source error named
`InvalidQueryError`; in every other case it responds 500 with the fixed
body `Server error`. -/
theorem respondWithError_classification (e : JsError) :
    ((respondWithError e).status = 400 ↔
      ∃ src, e.sourceError = some src ∧ src.name = "InvalidQueryError")
    ∧ (∀ src, e.sourceError = some src → src.name = "InvalidQueryError" →
        respondWithError e = ⟨400, "Invalid query: " ++ src.message⟩)
    ∧ ((∀ src, e.sourceError = some src → src.name ≠ "InvalidQueryError") →
        respondWithError e = ⟨500, "Server error"⟩) := by
  rcases hsrc : e.sourceError with _ | src
  · have hre : respondWithError e = ⟨500, "Server error"⟩ := by
      unfold respondWithError; rw [hsrc]
    refine ⟨?_, ?_, fun _ => hre⟩
    · rw [hre]
      constructor
      · intro h; exact absurd h (by decide)
      · rintro ⟨src, hs, -⟩; cases hs
    · intro src hs; cases hs
  · have hre : respondWithError e
        = if src.name = "InvalidQueryError" then ⟨400, "Invalid query: " ++ src.message⟩
          else ⟨500, "Server error"⟩ := by
      unfold respondWithError; rw [hsrc]
    by_cases hname : src.name = "InvalidQueryError"
    · have hre4 : respondWithError e = ⟨400, "Invalid query: " ++ src.message⟩ := by
        rw [hre, if_pos hname]
      refine ⟨?_, ?_, ?_⟩
      · rw [hre4]
        exact ⟨fun _ => ⟨src, rfl, hname⟩, fun _ => rfl⟩
      · intro src' hs _
        cases Option.some.inj hs; exact hre4
      · intro h
        exact absurd hname (h src rfl)
    · have hre5 : respondWithError e = ⟨500, "Server error"⟩ := by
        rw [hre, if_neg hname]
      refine ⟨?_, ?_, fun _ => hre5⟩
      · rw [hre5]
        constructor
        · intro h; exact absurd h (by decide)
        · rintro ⟨src', hs, hn⟩; cases Option.some.inj hs; exact absurd hn hname
      · intro src' hs hn; cases Option.some.inj hs; exact absurd hn hname

/-- Witness for C1: a wrapped `InvalidQueryError` yields 400 with the source
message, and an error without a source error yields the generic 500. -/
theorem respondWithError_classification_witness :
    respondWithError ⟨"Error", "boom", some ⟨"InvalidQueryError", "bad field"⟩⟩
      = ⟨400, "Invalid query: bad field"⟩
    ∧ respondWithError ⟨"Error", "boom", none⟩ = ⟨500, "Server error"⟩ := by
  constructor
  · exact (respondWithError_classification
      ⟨"Error", "boom", some ⟨"InvalidQueryError", "bad field"⟩⟩).2.1
      ⟨"InvalidQueryError", "bad field"⟩ rfl rfl
  · exact (respondWithError_classification ⟨"Error", "boom", none⟩).2.2
      (fun _ hs => Option.noConfusion hs)

/-- C9: an error whose own name is `InvalidQueryError` but which carries no
embedded source error is classified as a generic 500; only the wrapped
source error's name is ever inspected. -/
theorem respondWithError_ignores_top_level_name (e : JsError)
    (_hname : e.name = "InvalidQueryError") (hsrc : e.sourceError = none) :
    respondWithError e = ⟨500, "Server error"⟩ := by
  unfold respondWithError; rw [hsrc]

/-- Witness for C9. -/
theorem respondWithError_ignores_top_level_name_witness :
    respondWithError ⟨"InvalidQueryError", "bad query", none⟩ = ⟨500, "Server error"⟩ :=
  respondWithError_ignores_top_level_name ⟨"InvalidQueryError", "bad query", none⟩ rfl rfl

/-- Counterexample for C3: the sanitizer in src/index.js does not rename
`senderId` to `senderAddress` — the legacy key survives sanitization
unchanged and no `senderAddress` key is created. -/
theorem sanitizeQuery_senderId_not_renamed :
    jsGet (sanitizeQuery [("senderId", JSVal.str "addr1")]) "senderId"
      = some (JSVal.str "addr1")
    ∧ jsGet (sanitizeQuery [("senderId", JSVal.str "addr1")]) "senderAddress" = none := by
  constructor <;> decide

/-- C3 (amended): sanitization performs no legacy alias renaming at all; the
`senderId`, `recipientId`, `senderAddress` and `recipientAddress` fields
all pass through `_getSanitizedQuery` unchanged. -/
theorem sanitizeQuery_legacy_keys_pass_through (q : Query) :
    jsGet (sanitizeQuery q) "senderId" = jsGet q "senderId"
    ∧ jsGet (sanitizeQuery q) "recipientId" = jsGet q "recipientId"
    ∧ jsGet (sanitizeQuery q) "senderAddress" = jsGet q "senderAddress"
    ∧ jsGet (sanitizeQuery q) "recipientAddress" = jsGet q "recipientAddress" :=
  ⟨jsGet_sanitizeQuery_ne q _ (by decide), jsGet_sanitizeQuery_ne q _ (by decide),
   jsGet_sanitizeQuery_ne q _ (by decide), jsGet_sanitizeQuery_ne q _ (by decide)⟩

/-- Counterexample for C7: with `limit = "abc"` (present but not convertible
to an integer) the sanitizer still replaces the field — with the NaN
result of `parseInt` — instead of leaving it unchanged. -/
theorem sanitizeQuery_limit_nan_counterexample :
    jsGet (sanitizeQuery [("limit", JSVal.str "abc")]) "limit"
      = some (JSVal.num JsNumber.nan)
    ∧ jsGet (sanitizeQuery [("limit", JSVal.str "abc")]) "limit"
      ≠ some (JSVal.str "abc") := by
  constructor <;> decide

/-- C7 (amended): sanitization replaces `limit` with its `parseInt` result
whenever `limit` is present (yielding NaN when the string is not
convertible), with `"5"` parsing to the integer 5; the order-book route
applies the same rule to `depth` whenever it is present. -/
theorem sanitizeQuery_parses_numeric_fields (q : Query) :
    (∀ v, jsGet q "limit" = some v →
      jsGet (sanitizeQuery q) "limit" = some (JSVal.num (jsParseInt v)))
    ∧ (∀ v, jsGet q "depth" = some v →
      jsGet (orderBookSanitize q) "depth" = some (JSVal.num (jsParseInt v)))
    ∧ jsParseInt (JSVal.str "5") = JsNumber.int 5 := by
  refine ⟨?_, ?_, by decide⟩
  · intro v hv
    rw [sanitizeQuery_of_limit q v hv]
    exact jsGet_setKey_self q _ _
  · intro v hv
    have hs : jsGet (sanitizeQuery q) "depth" = some v := by
      rw [jsGet_sanitizeQuery_ne q "depth" (by decide)]; exact hv
    unfold orderBookSanitize
    rw [hs]
    exact jsGet_setKey_self _ _ _

/-- Witness for C7 (amended). -/
theorem sanitizeQuery_parses_numeric_fields_witness :
    jsGet (sanitizeQuery [("limit", JSVal.str "5"), ("depth", JSVal.str "7")]) "limit"
      = some (JSVal.num (JsNumber.int 5))
    ∧ jsGet (orderBookSanitize [("limit", JSVal.str "5"), ("depth", JSVal.str "7")]) "depth"
      = some (JSVal.num (JsNumber.int 7)) := by
  constructor
  · have h1 := (sanitizeQuery_parses_numeric_fields
      [("limit", JSVal.str "5"), ("depth", JSVal.str "7")]).1 (JSVal.str "5") (by decide)
    rw [h1]; decide
  · have h2 := (sanitizeQuery_parses_numeric_fields
      [("limit", JSVal.str "5"), ("depth", JSVal.str "7")]).2.1 (JSVal.str "7") (by decide)
    rw [h2]; decide

/-- C8: sanitization is a pure copy outside the recognized numeric fields:
every field other than `limit` (and, on the order-book route, `depth`)
and the legacy alias keys is read back from the sanitized query with its
original value; the raw query itself is a read-only input (the embedding
is a pure function returning a fresh value). -/
theorem sanitizeQuery_frame (q : Query) (k : String)
    (h1 : k ≠ "limit") (h2 : k ≠ "depth")
    (_h3 : k ≠ "senderId") (_h4 : k ≠ "recipientId") :
    jsGet (sanitizeQuery q) k = jsGet q k
    ∧ jsGet (orderBookSanitize q) k = jsGet q k :=
  ⟨jsGet_sanitizeQuery_ne q k h1, jsGet_orderBookSanitize_ne q k h1 h2⟩

/-- Witness for C8. -/
theorem sanitizeQuery_frame_witness :
    jsGet (sanitizeQuery [("foo", JSVal.str "bar")]) "foo"
      = jsGet [("foo", JSVal.str "bar")] "foo"
    ∧ jsGet (orderBookSanitize [("foo", JSVal.str "bar")]) "foo"
      = jsGet [("foo", JSVal.str "bar")] "foo" :=
  sanitizeQuery_frame _ "foo" (by decide) (by decide) (by decide) (by decide)

/-- Counterexample for C4: on a record whose `sizeRemaining` is absent but
whose `size` is present, the normalized view's `size` is absent
(`undefined`), not the record's `size` — the transform reads
`order.sizeRemaining` unconditionally. -/
theorem gdax_size_ignores_size_field :
    (getGDAXOrders "CLSK-LSK"
        [⟨none, none, some (JSVal.str "5"), none, none, none⟩]).map
        NormalizedOrderView.size = [none]
    ∧ (⟨none, none, some (JSVal.str "5"), none, none, none⟩ : OrderRecord).size
        = some (JSVal.str "5")
    ∧ (none : Option JSVal) ≠ some (JSVal.str "5") := by
  refine ⟨rfl, rfl, by decide⟩

/-- C4 (amended): in every GDAX transform the normalized `size` field is
read from the record's `sizeRemaining` field unconditionally — when that
field is absent the output `size` is absent, with no fallback to the
record's `size` field. -/
theorem gdax_size_from_sizeRemaining (marketId : String) (records : List OrderRecord) :
    (getGDAXBids marketId records).map NormalizedOrderView.size
        = records.map OrderRecord.sizeRemaining
    ∧ (getGDAXAsks marketId records).map NormalizedOrderView.size
        = records.map OrderRecord.sizeRemaining
    ∧ (getGDAXOrders marketId records).map NormalizedOrderView.size
        = records.map OrderRecord.sizeRemaining := by
  refine ⟨?_, ?_, ?_⟩ <;> simp [getGDAXBids, getGDAXAsks, getGDAXOrders]

/-- C5: the GDAX order transform returns one output record per input record
in the same relative order (the i-th output is built from the i-th input,
shown through `id` and `created_at`), and every output record carries the
fixed normalized fields, the market display identifier as `product_id`,
and `created_at` copied verbatim from the native `timestamp`. -/
theorem gdax_orders_normalized_shape (md : MarketData) (orders : List OrderRecord) :
    (getGDAXOrders (mkMarketId md) orders).length = orders.length
    ∧ (∀ i, ((getGDAXOrders (mkMarketId md) orders).get? i).map NormalizedOrderView.id
        = (orders.get? i).map OrderRecord.orderId)
    ∧ (∀ i, ((getGDAXOrders (mkMarketId md) orders).get? i).map NormalizedOrderView.created_at
        = (orders.get? i).map OrderRecord.timestamp)
    ∧ (∀ v ∈ getGDAXOrders (mkMarketId md) orders,
        v.status = "open" ∧ v.settled = false
        ∧ v.fill_fees = "0.0000000000000000" ∧ v.filled_size = "0.00000000"
        ∧ v.executed_value = "0.0000000000000000" ∧ v.stp = "dc" ∧ v.type = "limit"
        ∧ v.time_in_force = "GTC" ∧ v.post_only = false
        ∧ v.product_id = mkMarketId md) := by
  refine ⟨by simp [getGDAXOrders], ?_, ?_, ?_⟩
  · intro i; simp only [getGDAXOrders, List.get?_eq_getElem?, List.getElem?_map]
    cases orders[i]? <;> rfl
  · intro i; simp only [getGDAXOrders, List.get?_eq_getElem?, List.getElem?_map]
    cases orders[i]? <;> rfl
  · intro v hv
    simp only [getGDAXOrders, List.mem_map] at hv
    obtain ⟨order, -, rfl⟩ := hv
    exact ⟨rfl, rfl, rfl, rfl, rfl, rfl, rfl, rfl, rfl, rfl⟩

/-- Witness for C5 at a concrete singleton order list. -/
theorem gdax_orders_normalized_shape_witness :
    (getGDAXOrders (mkMarketId ⟨"LSK", "CLSK"⟩)
        [⟨some (JSVal.str "o1"), none, none, some (JSVal.str "2"),
          some "ask", some (JSVal.str "ts")⟩]).length = 1
    ∧ ((⟨some (JSVal.str "o1"), none, some (JSVal.str "2"), mkMarketId ⟨"LSK", "CLSK"⟩,
          "sell", "dc", "limit", "GTC", false, some (JSVal.str "ts"),
          "0.0000000000000000", "0.00000000", "0.0000000000000000", "open", false⟩ :
          NormalizedOrderView).status = "open"
        ∧ (⟨some (JSVal.str "o1"), none, some (JSVal.str "2"), mkMarketId ⟨"LSK", "CLSK"⟩,
            "sell", "dc", "limit", "GTC", false, some (JSVal.str "ts"),
            "0.0000000000000000", "0.00000000", "0.0000000000000000", "open", false⟩ :
            NormalizedOrderView).settled = false
        ∧ (⟨some (JSVal.str "o1"), none, some (JSVal.str "2"), mkMarketId ⟨"LSK", "CLSK"⟩,
            "sell", "dc", "limit", "GTC", false, some (JSVal.str "ts"),
            "0.0000000000000000", "0.00000000", "0.0000000000000000", "open", false⟩ :
            NormalizedOrderView).fill_fees = "0.0000000000000000"
        ∧ (⟨some (JSVal.str "o1"), none, some (JSVal.str "2"), mkMarketId ⟨"LSK", "CLSK"⟩,
            "sell", "dc", "limit", "GTC", false, some (JSVal.str "ts"),
            "0.0000000000000000", "0.00000000", "0.0000000000000000", "open", false⟩ :
            NormalizedOrderView).filled_size = "0.00000000"
        ∧ (⟨some (JSVal.str "o1"), none, some (JSVal.str "2"), mkMarketId ⟨"LSK", "CLSK"⟩,
            "sell", "dc", "limit", "GTC", false, some (JSVal.str "ts"),
            "0.0000000000000000", "0.00000000", "0.0000000000000000", "open", false⟩ :
            NormalizedOrderView).executed_value = "0.0000000000000000"
        ∧ (⟨some (JSVal.str "o1"), none, some (JSVal.str "2"), mkMarketId ⟨"LSK", "CLSK"⟩,
            "sell", "dc", "limit", "GTC", false, some (JSVal.str "ts"),
            "0.0000000000000000", "0.00000000", "0.0000000000000000", "open", false⟩ :
            NormalizedOrderView).stp = "dc"
        ∧ (⟨some (JSVal.str "o1"), none, some (JSVal.str "2"), mkMarketId ⟨"LSK", "CLSK"⟩,
            "sell", "dc", "limit", "GTC", false, some (JSVal.str "ts"),
            "0.0000000000000000", "0.00000000", "0.0000000000000000", "open", false⟩ :
            NormalizedOrderView).type = "limit"
        ∧ (⟨some (JSVal.str "o1"), none, some (JSVal.str "2"), mkMarketId ⟨"LSK", "CLSK"⟩,
            "sell", "dc", "limit", "GTC", false, some (JSVal.str "ts"),
            "0.0000000000000000", "0.00000000", "0.0000000000000000", "open", false⟩ :
            NormalizedOrderView).time_in_force = "GTC"
        ∧ (⟨some (JSVal.str "o1"), none, some (JSVal.str "2"), mkMarketId ⟨"LSK", "CLSK"⟩,
            "sell", "dc", "limit", "GTC", false, some (JSVal.str "ts"),
            "0.0000000000000000", "0.00000000", "0.0000000000000000", "open", false⟩ :
            NormalizedOrderView).post_only = false
        ∧ (⟨some (JSVal.str "o1"), none, some (JSVal.str "2"), mkMarketId ⟨"LSK", "CLSK"⟩,
            "sell", "dc", "limit", "GTC", false, some (JSVal.str "ts"),
            "0.0000000000000000", "0.00000000", "0.0000000000000000", "open", false⟩ :
            NormalizedOrderView).product_id = mkMarketId ⟨"LSK", "CLSK"⟩) := by
  have h := gdax_orders_normalized_shape ⟨"LSK", "CLSK"⟩
    [⟨some (JSVal.str "o1"), none, none, some (JSVal.str "2"), some "ask", some (JSVal.str "ts")⟩]
  exact ⟨h.1, h.2.2.2 _ (List.mem_singleton.mpr rfl)⟩

/-- C6: every record produced by the bids transform has side `buy`, every
record produced by the asks transform has side `sell`, and the mixed
order transform derives each record's side from the native tag: `sell`
when it equals `ask`, `buy` for any other value. -/
theorem gdax_sides (marketId : String) (bids asks orders : List OrderRecord) :
    (∀ v ∈ getGDAXBids marketId bids, v.side = "buy")
    ∧ (∀ v ∈ getGDAXAsks marketId asks, v.side = "sell")
    ∧ (∀ i, ((getGDAXOrders marketId orders).get? i).map NormalizedOrderView.side
        = (orders.get? i).map fun r => if r.side = some "ask" then "sell" else "buy") := by
  refine ⟨?_, ?_, ?_⟩
  · intro v hv
    simp only [getGDAXBids, List.mem_map] at hv
    obtain ⟨order, -, rfl⟩ := hv
    rfl
  · intro v hv
    simp only [getGDAXAsks, List.mem_map] at hv
    obtain ⟨order, -, rfl⟩ := hv
    rfl
  · intro i; simp only [getGDAXOrders, List.get?_eq_getElem?, List.getElem?_map]
    cases orders[i]? <;> rfl

/-- Witness for C6 at concrete singleton lists. -/
theorem gdax_sides_witness :
    (⟨none, none, none, "CLSK-LSK", "buy", "dc", "limit", "GTC", false, none,
        "0.0000000000000000", "0.00000000", "0.0000000000000000", "open", false⟩ :
        NormalizedOrderView).side = "buy"
    ∧ (⟨none, none, none, "CLSK-LSK", "sell", "dc", "limit", "GTC", false, none,
        "0.0000000000000000", "0.00000000", "0.0000000000000000", "open", false⟩ :
        NormalizedOrderView).side = "sell"
    ∧ ((getGDAXOrders "CLSK-LSK" [⟨none, none, none, none, none, none⟩]).get? 0).map
        NormalizedOrderView.side = some "buy" := by
  have h := gdax_sides "CLSK-LSK" [⟨none, none, none, none, none, none⟩]
    [⟨none, none, none, none, none, none⟩] [⟨none, none, none, none, none, none⟩]
  refine ⟨h.1 _ (List.mem_singleton.mpr rfl), h.2.1 _ (List.mem_singleton.mpr rfl), ?_⟩
  exact (h.2.2 0).trans (by decide)

/-- C2: whichever settlement-chain dependency alias (base or quote) is not
configured, the corresponding `GET /chain/.../account` and
`POST /chain/.../transaction` routes are still registered, and their
handlers answer 501 with the fixed explanatory body while making no bus
call at all. -/
theorem chain_routes_respond_501_when_unconfigured
    (cfg : ChainConfig) (invokeBus : String → String → HttpResponse) :
    (cfg.baseChainModuleAlias = none →
      (∃ r ∈ chainRoutes cfg invokeBus, r.method = "GET" ∧ r.path = "/chain/base/account"
        ∧ ∀ payload, r.handler payload = (⟨501, chainNotSupportedBody⟩, []))
      ∧ (∃ r ∈ chainRoutes cfg invokeBus, r.method = "POST" ∧ r.path = "/chain/base/transaction"
        ∧ ∀ payload, r.handler payload = (⟨501, chainNotSupportedBody⟩, [])))
    ∧ (cfg.quoteChainModuleAlias = none →
      (∃ r ∈ chainRoutes cfg invokeBus, r.method = "GET" ∧ r.path = "/chain/quote/account"
        ∧ ∀ payload, r.handler payload = (⟨501, chainNotSupportedBody⟩, []))
      ∧ (∃ r ∈ chainRoutes cfg invokeBus, r.method = "POST" ∧ r.path = "/chain/quote/transaction"
        ∧ ∀ payload, r.handler payload = (⟨501, chainNotSupportedBody⟩, []))) := by
  constructor
  · intro hb
    constructor
    · refine ⟨⟨"GET", "/chain/base/account",
        chainAccountHandler cfg.baseChainModuleAlias invokeBus⟩,
        List.mem_cons_self _ _, rfl, rfl, ?_⟩
      intro payload
      rw [hb]
      rfl
    · refine ⟨⟨"POST", "/chain/base/transaction",
        chainTransactionHandler cfg.baseChainModuleAlias invokeBus⟩,
        List.mem_cons_of_mem _ (List.mem_cons_self _ _), rfl, rfl, ?_⟩
      intro payload
      rw [hb]
      rfl
  · intro hq
    constructor
    · refine ⟨⟨"GET", "/chain/quote/account",
        chainAccountHandler cfg.quoteChainModuleAlias invokeBus⟩,
        List.mem_cons_of_mem _ (List.mem_cons_of_mem _ (List.mem_cons_self _ _)),
        rfl, rfl, ?_⟩
      intro payload
      rw [hq]
      rfl
    · refine ⟨⟨"POST", "/chain/quote/transaction",
        chainTransactionHandler cfg.quoteChainModuleAlias invokeBus⟩,
        List.mem_cons_of_mem _ (List.mem_cons_of_mem _
          (List.mem_cons_of_mem _ (List.mem_cons_self _ _))),
        rfl, rfl, ?_⟩
      intro payload
      rw [hq]
      rfl

/-- Witness for C2: with the default configuration (both chain aliases
unset) the base-chain transaction route is registered and a concrete
request gets 501 with no bus call. -/
theorem chain_routes_respond_501_when_unconfigured_witness :
    ∃ r ∈ chainRoutes defaultChainConfig (fun _ _ => ⟨200, "ok"⟩),
      r.method = "POST" ∧ r.path = "/chain/base/transaction"
      ∧ r.handler "rawTxPayload" = (⟨501, chainNotSupportedBody⟩, []) := by
  obtain ⟨r, hmem, hm, hp, hh⟩ :=
    ((chain_routes_respond_501_when_unconfigured defaultChainConfig
      (fun _ _ => ⟨200, "ok"⟩)).1 rfl).2
  exact ⟨r, hmem, hm, hp, hh "rawTxPayload"⟩

end DexHttpApi
